import Mathlib

/-!
Verification development for the behindy-story generation backend.

The Python sources are shallowly embedded: every service method that a
property talks about becomes a pure Lean function over explicit data;
provider calls, HTTP traffic and randomness are passed in as explicit
outcome values, so that the control flow of each method can be mirrored
exactly.  Python mapping values that the code inspects are modelled by
`Scalar`/`CandVal`; association lists model Python dicts (no duplicate
keys arise in the sources).
-/

namespace Behindy

/-- A Python scalar value as the validator and the scorer can observe it.
`other` stands for any value that is none of the listed kinds
(Python `None`, nested dicts/lists, ...), which the embedded code never
inspects beyond "not a str / not an int". A Python `bool` is kept separate
because `isinstance(x, int)` is true for it (`True == 1`, `False == 0`). -/
inductive Scalar where
  | str (s : String)
  | int (n : Int)
  | bool (b : Bool)
  | num (q : ℚ)
  | other
deriving DecidableEq, Repr

/-- Python `isinstance(x, int)` together with the value it compares as:
ints and bools qualify (bool is a subclass of int), floats and others do not. -/
def scalarAsPyInt : Scalar → Option Int
  | .int n => some n
  | .bool b => some (if b then 1 else 0)
  | _ => none

/-- The numeric value a scalar contributes to a Python `>=` comparison with a
float; `none` means the comparison raises `TypeError`. -/
def scalarAsNum : Scalar → Option ℚ
  | .int n => some (n : ℚ)
  | .num q => some q
  | .bool b => some (if b then 1 else 0)
  | _ => none

/-- One entry of a story candidate's `options` list: either a dict of scalar
fields, or some non-dict value (rejected by the `isinstance(option, dict)`
check in `_validate_json_structure`). -/
inductive OptVal where
  | dict (fields : List (String × Scalar))
  | nondict
deriving DecidableEq, Repr

/-- A top-level value of a story candidate mapping: the validator only
distinguishes "a list of option entries" from everything else. -/
inductive CandVal where
  | scalar (s : Scalar)
  | list (opts : List OptVal)
deriving DecidableEq, Repr

/-- A story candidate: the `Dict[str, Any]` that providers return and
`_validate_json_structure` checks, as an association list (first key wins,
as in a Python dict, which cannot hold duplicates). -/
abbrev Candidate := List (String × CandVal)

/-- Python `story_data.get(k)` / `k in story_data`. -/
def candGet (c : Candidate) (k : String) : Option CandVal :=
  c.lookup k

/-- Python dict assignment `c[k] = v`: replaces in place if the key exists,
otherwise appends (insertion order). -/
def candSet (c : Candidate) (k : String) (v : CandVal) : Candidate :=
  if (candGet c k).isSome then
    c.map (fun p => if p.1 == k then (p.1, v) else p)
  else
    c ++ [(k, v)]

/-- Python `option.get(k)` on an option entry. -/
def optGet (o : OptVal) (k : String) : Option Scalar :=
  match o with
  | .dict fs => fs.lookup k
  | .nondict => none

/-- Python `str.lower()` on the ASCII provider names (written as a map over
the character list so that it evaluates by reduction). -/
def pyLower (s : String) : String := ⟨s.data.map Char.toLower⟩

namespace StoryService

/-- Result record of `StoryService._validate_json_structure`
(the `fixed_json` field is always `None` in the source and is omitted). -/
structure ValidationResult where
  is_valid : Bool
  errors : List String
deriving DecidableEq, Repr

/-- `required_fields` of `_validate_json_structure`. -/
def requiredFields : List String :=
  ["story_title", "page_content", "options", "difficulty", "theme",
   "station_name", "line_number"]

/-- `option_fields` of `_validate_json_structure`. -/
def optionFields : List String :=
  ["content", "effect", "amount", "effect_preview"]

/-- Errors contributed by one entry of the options list (loop body of
`for i, option in enumerate(options)` in `_validate_json_structure`). -/
def optionErrors (i : Nat) (o : OptVal) : List String :=
  match o with
  | .nondict => ["선택지 " ++ toString (i + 1) ++ " 형식 오류"]
  | .dict _ =>
    (optionFields.filterMap (fun f =>
      if (optGet o f).isSome then none
      else some ("선택지 " ++ toString (i + 1) ++ " 필드 누락: " ++ f)))
    ++ (match optGet o "effect" with
        | some (.str e) =>
          if e = "health" ∨ e = "sanity" ∨ e = "none" then []
          else ["선택지 " ++ toString (i + 1) ++ " effect 값 오류"]
        | _ => ["선택지 " ++ toString (i + 1) ++ " effect 값 오류"])
    ++ (match scalarAsPyInt ((optGet o "amount").getD Scalar.other) with
        | some n =>
          if n < -10 ∨ n > 10 then
            ["선택지 " ++ toString (i + 1) ++ " amount 값 오류"]
          else []
        | none => ["선택지 " ++ toString (i + 1) ++ " amount 값 오류"])

/-- The whole `enumerate(options)` loop, carrying the running index. -/
def optionsErrors : Nat → List OptVal → List String
  | _, [] => []
  | i, o :: rest => optionErrors i o ++ optionsErrors (i + 1) rest

/-- The option-count error message. -/
def countError (n : Nat) : List String :=
  ["선택지 개수 오류: " ++ toString n ++ "개 (2-4개 필요)"]

/-- `StoryService._validate_json_structure`.  When `options` is present but
not a list, the source appends the count error and then either raises inside
the surrounding `try` while iterating (giving `is_valid=False` with a single
error) or iterates a non-list iterable, producing only further per-element
errors; in every such case the observable outcome is `is_valid=False` with a
non-empty error list, which is what the single error below yields as well. -/
def validate_json_structure (c : Candidate) : ValidationResult :=
  let fieldErrs := requiredFields.filterMap (fun f =>
    if (candGet c f).isSome then none else some ("필수 필드 누락: " ++ f))
  match candGet c "options" with
  | some (CandVal.list opts) =>
    let cntErrs :=
      if opts.length < 2 ∨ opts.length > 4 then countError opts.length else []
    let errors := fieldErrs ++ cntErrs ++ optionsErrors 0 opts
    ⟨errors.isEmpty, errors⟩
  | some (CandVal.scalar _) =>
    let errors := fieldErrs ++ ["선택지 개수 오류 (리스트 아님)"]
    ⟨errors.isEmpty, errors⟩
  | none =>
    -- `story_data.get("options", [])` defaults to the empty list
    let errors := fieldErrs ++ countError 0
    ⟨errors.isEmpty, errors⟩

/-- Modelled from the spec's words for the refinement claim about the
validator: one option entry is well-formed when all four option fields are
present, `effect` is one of the three allowed strings and `amount` is an
integer in `[-10, 10]` (Python counts a bool as an integer). -/
def optionWF (o : OptVal) : Bool :=
  (optionFields.all (fun f => (optGet o f).isSome)) &&
  (match optGet o "effect" with
   | some (.str e) => decide (e = "health" ∨ e = "sanity" ∨ e = "none")
   | _ => false) &&
  (match ((optGet o "amount").getD Scalar.other) |> scalarAsPyInt with
   | some n => decide (-10 ≤ n ∧ n ≤ 10)
   | none => false)

/-- Modelled from the spec's words for the refinement claim about the
validator: a candidate is valid when every required field is present, the
options value is a list of 2 to 4 entries, and every entry is well-formed. -/
def specValid (c : Candidate) : Bool :=
  (requiredFields.all (fun f => (candGet c f).isSome)) &&
  (match candGet c "options" with
   | some (CandVal.list opts) =>
     decide (2 ≤ opts.length ∧ opts.length ≤ 4) && opts.all optionWF
   | _ => false)

/-- `QualityScore` dataclass.  The scalar fields hold the raw Python values
stored into the dataclass (the source does not coerce them); `passed` is the
computed boolean. -/
structure QualityScore where
  total_score : Scalar
  creativity : Scalar
  coherence : Scalar
  engagement : Scalar
  korean_quality : Scalar
  game_suitability : Scalar
  feedback : Scalar
  passed : Bool
deriving DecidableEq, Repr

/-- Outcome of the scoring provider call inside `_evaluate_story_quality`:
the call raised, returned a non-mapping, or returned a mapping of fields. -/
inductive EvalResult where
  | raises (msg : String)
  | nonDict
  | dict (fields : List (String × Scalar))
deriving DecidableEq, Repr

/-- The all-zero `QualityScore` used on every failure path. -/
def zeroQuality (fb : Scalar) : QualityScore :=
  ⟨.int 0, .int 0, .int 0, .int 0, .int 0, .int 0, fb, false⟩

/-- `StoryService._evaluate_story_quality`.  When `total_score` is present
but not comparable with the float threshold, the Python `>=` raises a
`TypeError` that the surrounding `except` turns into the all-zero result. -/
def evaluate_story_quality (min_quality_score : ℚ) (e : EvalResult) :
    QualityScore :=
  match e with
  | .dict fs =>
    let total := (fs.lookup "total_score").getD (.int 0)
    match scalarAsNum total with
    | some q =>
      { total_score := total
        creativity := (fs.lookup "creativity").getD (.int 0)
        coherence := (fs.lookup "coherence").getD (.int 0)
        engagement := (fs.lookup "engagement").getD (.int 0)
        korean_quality := (fs.lookup "korean_quality").getD (.int 0)
        game_suitability := (fs.lookup "game_suitability").getD (.int 0)
        feedback := (fs.lookup "feedback").getD (.str "평가 완료")
        passed := decide (q ≥ min_quality_score) }
    | none => zeroQuality (.str "평가 오류: TypeError")
  | .nonDict => zeroQuality (.str "품질 평가 실패")
  | .raises msg => zeroQuality (.str ("평가 오류: " ++ msg))

/-- The request context `_generate_validated_story` receives (only the two
fields that `_create_fallback_story` reads). -/
structure StoryContext where
  station_name : Option String
  line_number : Option Int
deriving DecidableEq, Repr

/-- One loop iteration's interaction with the provider in
`_generate_validated_story`: either `_generate_story_with_external_prompt`
returned `None` (it catches every provider exception itself), or it returned
a candidate together with the outcome of the scoring call for it. -/
inductive Attempt where
  | genNone
  | gen (draft : Candidate) (eval : EvalResult)

/-- `StoryService._create_fallback_story`. -/
def create_fallback_story (ctx : StoryContext) : Candidate :=
  let station := ctx.station_name.getD "강남"
  [("story_title", .scalar (.str (station ++ "역의 모험"))),
   ("page_content", .scalar (.str (station ++
     "역에서 예상치 못한 상황이 벌어졌습니다. 신중하게 대처해야 할 때입니다."))),
   ("options", .list
     [.dict [("content", .str "주변을 신중하게 관찰한다"), ("effect", .str "sanity"),
             ("amount", .int 3), ("effect_preview", .str "정신력 +3")],
      .dict [("content", .str "빠르게 행동한다"), ("effect", .str "health"),
             ("amount", .int (-2)), ("effect_preview", .str "체력 -2")]]),
   ("estimated_length", .scalar (.int 5)),
   ("difficulty", .scalar (.str "보통")),
   ("theme", .scalar (.str "미스터리")),
   ("station_name", .scalar (.str station)),
   ("line_number", .scalar (.int (ctx.line_number.getD 2))),
   ("quality_score", .scalar (.num 60)),
   ("quality_feedback", .scalar (.str "Fallback 스토리 (품질 검증 우회)"))]

/-- The two dict assignments performed on a successful attempt
(`story_result["quality_score"] = ...`, `story_result["quality_feedback"] = ...`). -/
def attach_quality (c : Candidate) (q : QualityScore) : Candidate :=
  candSet (candSet c "quality_score" (.scalar q.total_score))
    "quality_feedback" (.scalar q.feedback)

/-- `StoryService._generate_validated_story`: the retry loop over
`max_retries` attempts (the list supplies one provider interaction per
attempt), falling back to `_create_fallback_story` when every attempt fails. -/
def generate_validated_story (min_quality_score : ℚ) :
    List Attempt → StoryContext → Candidate
  | [], ctx => create_fallback_story ctx
  | .genNone :: rest, ctx => generate_validated_story min_quality_score rest ctx
  | .gen draft ev :: rest, ctx =>
    if (validate_json_structure draft).is_valid then
      let q := evaluate_story_quality min_quality_score ev
      if q.passed then attach_quality draft q
      else generate_validated_story min_quality_score rest ctx
    else generate_validated_story min_quality_score rest ctx

/-- `OptionData` as used by `StoryGenerationResponse`. -/
structure OptionData where
  content : String
  effect : String
  amount : Int
  effect_preview : String
deriving DecidableEq, Repr

/-- `StoryGenerationResponse` (response model of the single-player service). -/
structure StoryGenerationResponse where
  story_title : String
  page_content : String
  options : List OptionData
  estimated_length : Int
  difficulty : String
  theme : String
  station_name : String
  line_number : Int
deriving DecidableEq, Repr

/-- The request fields that `_create_fallback_response` reads. -/
structure StoryGenerationRequest where
  station_name : String
  line_number : Int
deriving DecidableEq, Repr

/-- `StoryService._create_fallback_response` (returned by `generate_story`
whenever the pipeline raises): note its `theme` field is the literal
`"일상"`. -/
def create_fallback_response (r : StoryGenerationRequest) :
    StoryGenerationResponse :=
  { story_title := r.station_name ++ "역의 상황"
    page_content := r.station_name ++
      "역에서 예상치 못한 일이 벌어졌습니다. 주변 상황을 파악하고 신중하게 행동해야 합니다."
    options :=
      [⟨"상황을 자세히 관찰한다", "sanity", 2, "정신력 +2"⟩,
       ⟨"빠르게 대응한다", "health", -1, "체력 -1"⟩]
    estimated_length := 5
    difficulty := "보통"
    theme := "일상"
    station_name := r.station_name
    line_number := r.line_number }

end StoryService

namespace BatchStoryService

/-- `ALLOWED_THEMES` (module-level constant of `batch_story_service.py`). -/
def ALLOWED_THEMES : List String := ["미스터리", "공포", "스릴러"]

/-- `theme_mapping` inside `_get_fallback_theme`. -/
def theme_mapping : List (String × String) :=
  [("종각", "미스터리"), ("시청", "스릴러"), ("서울역", "미스터리"),
   ("강남", "스릴러"), ("홍대입구", "미스터리"), ("잠실", "공포"),
   ("압구정", "스릴러"), ("교대", "미스터리"), ("옥수", "미스터리"),
   ("명동", "스릴러"), ("혜화", "공포"), ("사당", "공포")]

/-- `BatchStoryService._get_fallback_theme`: table lookup, with
`random.choice(ALLOWED_THEMES)` for unknown stations modelled by an
injected index into the allowed-theme list. -/
def get_fallback_theme (choice : Fin 3) (station : String) : String :=
  match theme_mapping.lookup station with
  | some t => t
  | none => ALLOWED_THEMES.get (Fin.cast rfl choice)

/-- Outcome of the metadata provider call inside `_generate_story_metadata`. -/
inductive MetaResult where
  | error
  | nonDict
  | dict (story_title : Option String) (theme : Option String)
deriving DecidableEq, Repr

/-- Theme of `_create_mock_story_metadata` (which selects its theme through
`_get_fallback_theme`). -/
def mock_metadata_theme (choice : Fin 3) (station : String) : String :=
  get_fallback_theme choice station

/-- The theme of the metadata produced by
`BatchStoryService._generate_story_metadata`: a mock provider or any failure
yields the mock metadata; a mapping result gets its theme checked against
`ALLOWED_THEMES` and replaced by the per-station fallback when out of set;
a mapping without `story_title` is discarded for the mock metadata.  (All
`_get_fallback_theme` draws share one injected `choice` index: distinct draws
could differ, but only within the allowed set.) -/
def generate_story_metadata_theme (choice : Fin 3) (providerIsMock : Bool)
    (station : String) (r : MetaResult) : String :=
  if providerIsMock then mock_metadata_theme choice station
  else
    match r with
    | .error => mock_metadata_theme choice station
    | .nonDict => mock_metadata_theme choice station
    | .dict title theme =>
      let t := theme.getD "N/A"
      let t := if t ∈ ALLOWED_THEMES then t else get_fallback_theme choice station
      if title.isSome then t else mock_metadata_theme choice station

/-- Theme of the `BatchStoryResponse` returned by
`BatchStoryService.generate_complete_story`: on a pipeline exception the
whole story is replaced by `_create_fallback_complete_story` (whose theme is
the mock metadata theme); otherwise the metadata theme is checked once more
against `ALLOWED_THEMES` (lines 53-56) before the response is assembled. -/
def generate_complete_story_theme (ca cb cc : Fin 3) (providerIsMock : Bool)
    (station : String) (r : MetaResult) (pipelineRaises : Bool) : String :=
  if pipelineRaises then mock_metadata_theme cc station
  else
    let t := generate_story_metadata_theme ca providerIsMock station r
    if t ∈ ALLOWED_THEMES then t else get_fallback_theme cb station

end BatchStoryService

namespace OpenAIProvider

/-- The `kwargs` context fields that `_parse_response`/`_fallback_response`
read. -/
structure ProviderContext where
  station_name : Option String
  line_number : Option Int
deriving DecidableEq, Repr

/-- `OpenAIProvider._fallback_response`: note its `theme` field is the
literal `"어드벤처"`. -/
def fallback_response (ctx : ProviderContext) : Candidate :=
  let station := ctx.station_name.getD "강남"
  [("story_title", .scalar (.str (station ++ "역의 모험"))),
   ("page_content", .scalar (.str "예상치 못한 상황이 발생했습니다. 어떻게 대처하시겠습니까?")),
   ("options", .list
     [.dict [("content", .str "신중하게 행동한다"), ("effect", .str "sanity"),
             ("amount", .int 3), ("effect_preview", .str "정신력 +3")],
      .dict [("content", .str "빠르게 대응한다"), ("effect", .str "health"),
             ("amount", .int (-2)), ("effect_preview", .str "체력 -2")]]),
   ("estimated_length", .scalar (.int 5)),
   ("difficulty", .scalar (.str "보통")),
   ("theme", .scalar (.str "어드벤처")),
   ("station_name", .scalar (.str station)),
   ("line_number", .scalar (.int (ctx.line_number.getD 2)))]

/-- `if k not in data: data[k] = v`. -/
def setIfMissing (c : Candidate) (k : String) (v : CandVal) : Candidate :=
  if (candGet c k).isSome then c else c ++ [(k, v)]

/-- `OpenAIProvider._parse_response`: `json.loads` success hands back the
parsed object with `station_name`/`line_number` filled in from the context;
a `JSONDecodeError` yields `_fallback_response`.  (JSON mode makes the
parsed content an object; a non-object top level would raise a `TypeError`
out of the membership test instead, a path no caller can reach with
`response_format=json_object`.) -/
def parse_response (parsed : Option Candidate) (ctx : ProviderContext) :
    Candidate :=
  match parsed with
  | some data =>
    setIfMissing
      (setIfMissing data "station_name"
        (.scalar (.str (ctx.station_name.getD "강남"))))
      "line_number" (.scalar (.int (ctx.line_number.getD 2)))
  | none => fallback_response ctx

/-- The `message.content` of one choice of the HTTP response body: either it
parses as a JSON object or it does not. -/
inductive ChoiceContent where
  | parses (obj : Candidate)
  | unparsable
deriving DecidableEq, Repr

/-- What the single HTTP POST of `generate_story` produced: a timeout, a
client/connection error, or a response with a status and an optional
`choices` array. -/
inductive HttpOutcome where
  | timeout
  | clientError (msg : String)
  | response (status : Nat) (choices : Option (List ChoiceContent))
deriving DecidableEq, Repr

/-- `OpenAIProvider.generate_story`.  `Except.error` models an exception
reaching the caller; `Except.ok` a returned mapping.  A non-200 status makes
the source raise inside the `try` (line 165), which the generic `except`
re-raises wrapped (line 180); timeout and `aiohttp.ClientError` are raised
from their own `except` clauses and propagate unwrapped. -/
def generate_story (keyNonEmpty aiohttpPresent : Bool) (ctx : ProviderContext)
    (h : HttpOutcome) : Except String Candidate :=
  if ¬ (keyNonEmpty && aiohttpPresent) then
    Except.error "OpenAI API 키가 설정되지 않았거나 aiohttp가 설치되지 않았습니다."
  else
    match h with
    | .timeout => Except.error "OpenAI API 요청 시간 초과"
    | .clientError msg =>
      Except.error ("HTTP 클라이언트 오류: " ++ msg)
    | .response status choices =>
      if status = 200 then
        match choices with
        | some (c :: _) =>
          match c with
          | .parses obj => Except.ok (parse_response (some obj) ctx)
          | .unparsable => Except.ok (parse_response none ctx)
        | _ => Except.ok (fallback_response ctx)
      else
        Except.error ("OpenAI API 호출 실패: OpenAI API 오류: " ++ toString status)

end OpenAIProvider

namespace LLMProviderFactory

/-- The settings fields `get_provider` reads (`config/settings.py`). -/
structure Settings where
  AI_PROVIDER : String
  OPENAI_API_KEY : String
  OPENAI_MODEL : String
  OPENAI_MAX_TOKENS : Int
  CLAUDE_API_KEY : String
  CLAUDE_MODEL : String
deriving DecidableEq, Repr

/-- The provider object the factory returns. -/
inductive Provider where
  | openai (api_key model : String) (max_tokens : Int)
  | claude (api_key model : String)
  | mock
deriving DecidableEq, Repr

/-- `OpenAIProvider.is_available`:
`bool(api_key and api_key != "" and aiohttp is not None)`. -/
def openai_is_available (api_key : String) (aiohttpPresent : Bool) : Bool :=
  decide (api_key ≠ "") && aiohttpPresent

/-- `ClaudeProvider.is_available` (same test). -/
def claude_is_available (api_key : String) (aiohttpPresent : Bool) : Bool :=
  decide (api_key ≠ "") && aiohttpPresent

/-- `LLMProviderFactory.get_provider` on the `Settings` path (the
`ImportError` branch that reads raw environment variables is not modelled).
The `if provider_name == "openai" and key` / `elif provider_name == "claude"
and key` chain converges on `MockProvider()` whenever the selected branch's
provider is unavailable or no branch is selected. -/
def get_provider (s : Settings) (aiohttpPresent : Bool) : Provider :=
  let name := pyLower s.AI_PROVIDER
  if name = "openai" ∧ s.OPENAI_API_KEY ≠ "" then
    if openai_is_available s.OPENAI_API_KEY aiohttpPresent then
      Provider.openai s.OPENAI_API_KEY s.OPENAI_MODEL s.OPENAI_MAX_TOKENS
    else Provider.mock
  else if name = "claude" ∧ s.CLAUDE_API_KEY ≠ "" then
    if claude_is_available s.CLAUDE_API_KEY aiohttpPresent then
      Provider.claude s.CLAUDE_API_KEY s.CLAUDE_MODEL
    else Provider.mock
  else Provider.mock

end LLMProviderFactory

namespace Multiplayer

/-- `ParticipantInfo` (multiplayer_models.py). -/
structure ParticipantInfo where
  character_name : String
  hp : Int
  sanity : Int
deriving DecidableEq, Repr

/-- `ChatHistoryItem`. -/
structure ChatHistoryItem where
  character_name : String
  content : String
deriving DecidableEq, Repr

/-- `StoryHistoryItem`. -/
structure StoryHistoryItem where
  phase : Int
  summary : String
deriving DecidableEq, Repr

/-- `MultiplayerStoryRequest`. -/
structure MultiplayerStoryRequest where
  room_id : Int
  phase : Int
  station_name : String
  story_outline : Option String
  participants : List ParticipantInfo
  message_stack : List ChatHistoryItem
  story_history : List StoryHistoryItem
  is_intro : Bool
deriving DecidableEq, Repr

/-- `ParticipantUpdate`. -/
structure ParticipantUpdate where
  character_name : String
  hp_change : Int
  sanity_change : Int
deriving DecidableEq, Repr

/-- `StoryContent`. -/
structure StoryContent where
  current_situation : String
  special_event : String
  hint : String
deriving DecidableEq, Repr

/-- `MultiplayerStoryResponse`. -/
structure MultiplayerStoryResponse where
  story : StoryContent
  effects : List ParticipantUpdate
  phase : Int
  is_ending : Bool
  story_outline : Option String
  phase_summary : Option String
  ending_summary : Option String
deriving DecidableEq, Repr

/-- One entry of the provider's `effects` array: a dict accepted by
`ParticipantUpdate(**d)`, a non-dict skipped by the `isinstance` check, or a
dict that pydantic rejects (e.g. no `character_name`), whose constructor
raises and aborts the whole parse. -/
inductive EffectEntry where
  | valid (u : ParticipantUpdate)
  | nonDict
  | bad
deriving DecidableEq, Repr

/-- The `story` field of a provider result: absent (`get` defaults to `{}`),
a dict of the three sub-fields, or some non-dict value. -/
inductive StoryField where
  | missing
  | dict (current_situation special_event hint : Option String)
  | nonDict
deriving DecidableEq, Repr

/-- A raw `is_ending` value as the provider's JSON may carry it: a JSON
bool, a string, or an integral number.  The source observes such a value
twice, in two different ways: Python truthiness gates the
`ending_summary` assignment (line 245), and pydantic's lax bool coercion
produces the `is_ending` field when `MultiplayerStoryResponse` is
constructed — and the two can disagree (e.g. the string `"false"`). -/
inductive RawBool where
  | bool (b : Bool)
  | str (s : String)
  | int (n : Int)
deriving DecidableEq, Repr

/-- Python truthiness of a raw `is_ending` value (`if is_ending`): a bool
is itself, a string is truthy iff non-empty, a number iff non-zero. -/
def RawBool.truthy : RawBool → Bool
  | .bool b => b
  | .str s => decide (s ≠ "")
  | .int n => decide (n ≠ 0)

/-- Pydantic's lax coercion of a raw value into the `is_ending : bool`
response field: JSON bools pass through; the documented string spellings
coerce case-insensitively; the ints 0/1 coerce; anything else raises
`ValidationError` when the response model is constructed (`none` here),
which aborts the call into the mock path. -/
def RawBool.pydanticBool : RawBool → Option Bool
  | .bool b => some b
  | .str s =>
    let l := pyLower s
    if l = "true" ∨ l = "t" ∨ l = "yes" ∨ l = "y" ∨ l = "on" ∨ l = "1" then
      some true
    else if l = "false" ∨ l = "f" ∨ l = "no" ∨ l = "n" ∨ l = "off" ∨ l = "0" then
      some false
    else none
  | .int n => if n = 1 then some true else if n = 0 then some false else none

/-- The fields of a mapping returned by the provider for a multiplayer call
(both intro and phase calls read subsets of these; a non-list `effects`
value, which would raise in the `for` loop, is covered by the
`ProviderCall.raises` outcome).  `is_ending` keeps the provider's raw
value: truthiness and pydantic coercion are applied at the use sites. -/
structure MPResult where
  story : StoryField
  effects : Option (List EffectEntry)
  is_ending : Option RawBool
  phase_summary : Option String
  ending_summary : Option String
  story_outline : Option String
deriving DecidableEq, Repr

/-- Outcome of `provider.generate_story` for a multiplayer call: it raised,
returned a non-mapping, or returned a mapping. -/
inductive ProviderCall where
  | raises
  | nonDict
  | ok (r : MPResult)
deriving DecidableEq, Repr

/-- Injected randomness: `themeIdx` stands for `random.choice` over the mock
theme table's keys, `delta` for the successive `random.randint` draws
(participant position ↦ (hp draw, sanity draw); the source draws from
`[-2, 1]` in `_create_default_effects` and `[-3, 2]` in
`_create_mock_response`, but no modelled property depends on the range). -/
structure MPRand where
  themeIdx : Fin 3
  delta : Nat → Int × Int

/-- `MultiplayerStoryService._create_default_story_content`. -/
def create_default_story_content (req : MultiplayerStoryRequest) :
    StoryContent :=
  ⟨req.station_name ++ "역에서 예상치 못한 일이 벌어집니다.",
   "긴장감이 감돕니다.", "신중하게 행동하세요."⟩

/-- The shared `result.get("story", {})` parsing of `_generate_intro` and
`_parse_llm_response`. -/
def parse_story_field (req : MultiplayerStoryRequest) :
    StoryField → StoryContent
  | .missing => ⟨"", "", ""⟩
  | .dict cs se h => ⟨cs.getD "", se.getD "", h.getD ""⟩
  | .nonDict => create_default_story_content req

/-- One `ParticipantUpdate` per participant with injected random deltas
(the loop bodies of `_create_default_effects` and of the mock effects). -/
def default_effects_from (delta : Nat → Int × Int) :
    Nat → List ParticipantInfo → List ParticipantUpdate
  | _, [] => []
  | i, p :: rest =>
    ⟨p.character_name, (delta i).1, (delta i).2⟩ ::
      default_effects_from delta (i + 1) rest

/-- `MultiplayerStoryService._create_default_effects`. -/
def create_default_effects (rand : MPRand) (ps : List ParticipantInfo) :
    List ParticipantUpdate :=
  default_effects_from rand.delta 0 ps

/-- The `for effect_data in effects_data` loop of `_parse_llm_response`,
keeping the dict entries (non-dicts are skipped). -/
def parseEffects (es : List EffectEntry) : List ParticipantUpdate :=
  es.filterMap (fun e => match e with | .valid u => some u | _ => none)

/-- Whether the effects loop hits an entry whose `ParticipantUpdate(**d)`
raises. -/
def effectsRaise (es : List EffectEntry) : Bool :=
  es.any (fun e => match e with | .bad => true | _ => false)

/-- `MultiplayerStoryService._parse_llm_response` (reached only when no
effect entry raises and the raw `is_ending` is pydantic-coercible; see
`generate_story`).  `result.get("is_ending", False)` keeps the raw value:
its Python *truthiness* decides whether the provider's `ending_summary` is
kept (line 245), while the response's `is_ending` field stores the
pydantic-*coerced* bool — the two observations can disagree. -/
def parse_llm_response (rand : MPRand) (result : MPResult)
    (req : MultiplayerStoryRequest) : MultiplayerStoryResponse :=
  let raw := result.is_ending.getD (.bool false)
  let effects0 := parseEffects (result.effects.getD [])
  { story := parse_story_field req result.story
    effects :=
      if effects0.isEmpty then create_default_effects rand req.participants
      else effects0
    phase := req.phase + 1
    is_ending := raw.pydanticBool.getD false
    story_outline := req.story_outline
    phase_summary := some (result.phase_summary.getD "")
    ending_summary := if raw.truthy then result.ending_summary else none }

/-- Keys of the `themes` table in `_create_mock_response`, in insertion
order (what `random.choice(list(themes.keys()))` draws from). -/
def mockThemeNames : List String := ["미스터리", "공포", "스릴러"]

/-- The `themes[selected_theme]` lookup of `_create_mock_response`. -/
def mock_theme_content (station selected : String) : StoryContent :=
  if selected = "미스터리" then
    ⟨station ++ "역에서 수상한 표지판을 발견했습니다.",
     "이상한 기호들이 무언가를 가리키고 있는 것 같습니다.",
     "표지판의 기호를 해독해보세요."⟩
  else if selected = "공포" then
    ⟨station ++ "역의 조명이 갑자기 어두워집니다.",
     "어둠 속에서 무언가가 움직이는 소리가 들립니다.",
     "조심스럽게 소리의 근원을 찾아보세요."⟩
  else
    ⟨station ++ "역에서 긴박한 상황이 발생했습니다.",
     "누군가가 여러분을 따라오고 있는 것 같습니다.",
     "안전한 장소를 찾거나 맞서 싸울 준비를 하세요."⟩

/-- `MultiplayerStoryService._create_mock_response`. -/
def create_mock_response (rand : MPRand) (req : MultiplayerStoryRequest) :
    MultiplayerStoryResponse :=
  if req.is_intro then
    { story :=
        ⟨req.station_name ++ "역에 도착한 순간, 이상한 기운이 느껴집니다.",
         "주변은 이상하리만치 조용하고, 어두운 그림자들이 벽을 따라 움직이는 것 같습니다.",
         "주변을 살펴보며 단서를 찾아보세요."⟩
      effects := []
      phase := 1
      is_ending := false
      story_outline := some (req.station_name ++
        "역에서 벌어지는 미스터리. 참가자들은 5-8 Phase 안에 진실을 밝혀야 합니다.")
      phase_summary := some (req.station_name ++ "역에 도착하여 이상한 기운을 감지함")
      ending_summary := none }
  else
    let selected := mockThemeNames.get (Fin.cast rfl rand.themeIdx)
    let is_ending := decide (req.phase ≥ 8)
    { story := mock_theme_content req.station_name selected
      effects := default_effects_from rand.delta 0 req.participants
      phase := req.phase + 1
      is_ending := is_ending
      story_outline := req.story_outline
      phase_summary := some (selected ++ " 테마 진행")
      ending_summary :=
        if is_ending then some (req.station_name ++ "역에서의 모험이 종료되었습니다.")
        else none }

/-- `MultiplayerStoryService._generate_intro`: any raise or non-mapping
result falls back to the mock response; the intro path never reads
`effects`, so no pydantic failure can occur here. -/
def generate_intro (rand : MPRand) (call : ProviderCall)
    (req : MultiplayerStoryRequest) : MultiplayerStoryResponse :=
  match call with
  | .ok r =>
    { story := parse_story_field req r.story
      effects := []
      phase := 1
      is_ending := false
      story_outline :=
        some (r.story_outline.getD (req.station_name ++ "역에서 벌어지는 미스터리"))
      phase_summary :=
        some (r.phase_summary.getD (req.station_name ++ "역에 도착하여 이상한 기운을 감지함"))
      ending_summary := none }
  | _ => create_mock_response rand req

/-- `MultiplayerStoryService._generate_story`: raise / non-mapping / a
pydantic-rejected effect entry / a raw `is_ending` that pydantic cannot
coerce (a `ValidationError` when `MultiplayerStoryResponse` is built) all
route to the mock response via the surrounding `except`. -/
def generate_story (rand : MPRand) (call : ProviderCall)
    (req : MultiplayerStoryRequest) : MultiplayerStoryResponse :=
  match call with
  | .ok r =>
    if effectsRaise (r.effects.getD []) then create_mock_response rand req
    else if ((r.is_ending.getD (.bool false)).pydanticBool).isNone then
      create_mock_response rand req
    else parse_llm_response rand r req
  | _ => create_mock_response rand req

/-- `MultiplayerStoryService.generate_next_phase`: a mock provider answers
with the mock response directly; otherwise the intro flag selects the path
(the inner functions absorb their own failures, and the outer `except` also
lands on `_create_mock_response`). -/
def generate_next_phase (rand : MPRand) (providerNameHasMock : Bool)
    (call : ProviderCall) (req : MultiplayerStoryRequest) :
    MultiplayerStoryResponse :=
  if providerNameHasMock then create_mock_response rand req
  else if req.is_intro then generate_intro rand call req
  else generate_story rand call req

end Multiplayer

/-! Concrete inputs used by counterexamples and witnesses. -/

/-- A fixed randomness source (values are irrelevant to the properties). -/
def mpRand0 : Multiplayer.MPRand := ⟨0, fun _ => (0, 0)⟩

/-- A non-intro multiplayer request with three known participants. -/
def mpReq3 : Multiplayer.MultiplayerStoryRequest :=
  ⟨1, 3, "강남", none,
   [⟨"알파", 80, 80⟩, ⟨"베타", 70, 60⟩, ⟨"감마", 90, 50⟩], [], [], false⟩

/-- An intro-mode multiplayer request. -/
def mpReqIntro : Multiplayer.MultiplayerStoryRequest :=
  ⟨1, 0, "강남", none, [⟨"알파", 80, 80⟩], [], [], true⟩

/-- A non-intro request already at phase 8. -/
def mpReq8 : Multiplayer.MultiplayerStoryRequest :=
  ⟨1, 8, "강남", some "개요", [⟨"알파", 80, 80⟩], [], [], false⟩

/-- A provider mapping carrying exactly one valid participant-effect entry
(for a room of three participants). -/
def mpResult1 : Multiplayer.MPResult :=
  ⟨.dict (some "상황") (some "이벤트") (some "힌트"),
   some [.valid ⟨"알파", -1, 0⟩], some (.bool false), some "요약", none, none⟩

/-- A provider mapping with no effects at all. -/
def mpResult0 : Multiplayer.MPResult :=
  ⟨.dict (some "상황") (some "이벤트") (some "힌트"),
   none, some (.bool false), some "요약", none, none⟩

/-- A provider mapping whose `is_ending` is the JSON *string* `"false"` —
truthy for Python, coerced to `False` by pydantic — together with an
`ending_summary`. -/
def mpResultFalseStr : Multiplayer.MPResult :=
  ⟨.dict (some "상황") (some "이벤트") (some "힌트"),
   some [.valid ⟨"알파", -1, 0⟩], some (.str "false"), some "요약",
   some "전체 스토리 요약", none⟩

/-- A provider mapping whose `is_ending` is the JSON bool `true`, with an
`ending_summary`. -/
def mpResultTrue : Multiplayer.MPResult :=
  ⟨.dict (some "상황") (some "이벤트") (some "힌트"),
   some [.valid ⟨"알파", -1, 0⟩], some (.bool true), some "요약",
   some "전체 스토리 요약", none⟩

/-- A request context for the single-player pipeline. -/
def sctx0 : StoryService.StoryContext := ⟨some "강남", some 2⟩

/-- A structurally valid draft whose theme is outside the allowed set. -/
def romanceDraft : Candidate :=
  [("story_title", .scalar (.str "강남역의 로맨스")),
   ("page_content", .scalar (.str "강남역에서 두 사람이 만났습니다.")),
   ("options", .list
     [.dict [("content", .str "말을 건다"), ("effect", .str "sanity"),
             ("amount", .int 1), ("effect_preview", .str "정신력 +1")],
      .dict [("content", .str "지나친다"), ("effect", .str "none"),
             ("amount", .int 0), ("effect_preview", .str "변화 없음")]]),
   ("difficulty", .scalar (.str "보통")),
   ("theme", .scalar (.str "로맨스")),
   ("station_name", .scalar (.str "강남")),
   ("line_number", .scalar (.int 2))]

/-- A candidate failing validation (missing fields, empty options). -/
def badDraft : Candidate :=
  [("story_title", .scalar (.str "제목")), ("options", .list [])]

/-- A provider context for the OpenAI provider embedding. -/
def pctx0 : OpenAIProvider.ProviderContext := ⟨some "강남", some 2⟩

/-- Settings naming OpenAI with an empty OpenAI key but a configured Claude
key. -/
def c8settings : LLMProviderFactory.Settings :=
  ⟨"openai", "", "gpt-4o-mini", 1000, "sk-claude-key", "claude-3-haiku-20240307"⟩

/-! Theorems. -/

/-- C4: for every multiplayer request with `is_intro = true` — whether the
provider call succeeds, returns a malformed result, or raises, and whether
the mock provider answers — the returned response has `phase = 1`,
`is_ending = false` and an empty effects list. -/
theorem c4_intro_shape (rand : Multiplayer.MPRand) (m : Bool)
    (call : Multiplayer.ProviderCall)
    (req : Multiplayer.MultiplayerStoryRequest) (h : req.is_intro = true) :
    (Multiplayer.generate_next_phase rand m call req).phase = 1 ∧
    (Multiplayer.generate_next_phase rand m call req).is_ending = false ∧
    (Multiplayer.generate_next_phase rand m call req).effects = [] := by
  unfold Multiplayer.generate_next_phase Multiplayer.generate_intro
    Multiplayer.create_mock_response
  cases m <;> cases call <;> simp [h]

/-- Witness for C4 at a concrete intro request. -/
theorem c4_intro_shape_witness :
    (Multiplayer.generate_next_phase mpRand0 false .raises mpReqIntro).phase = 1 ∧
    (Multiplayer.generate_next_phase mpRand0 false .raises mpReqIntro).is_ending = false ∧
    (Multiplayer.generate_next_phase mpRand0 false .raises mpReqIntro).effects = [] :=
  c4_intro_shape mpRand0 false .raises mpReqIntro rfl

/-- C5: for every multiplayer request with `is_intro = false` and input
phase `N`, the returned response has phase `N + 1`, on the provider-parsed
path and on every mock/fallback path. -/
theorem c5_phase_increment (rand : Multiplayer.MPRand) (m : Bool)
    (call : Multiplayer.ProviderCall)
    (req : Multiplayer.MultiplayerStoryRequest) (h : req.is_intro = false) :
    (Multiplayer.generate_next_phase rand m call req).phase = req.phase + 1 := by
  unfold Multiplayer.generate_next_phase Multiplayer.generate_story
    Multiplayer.parse_llm_response Multiplayer.create_mock_response
  cases m <;> cases call <;> simp [h]
  split
  · simp
  · split <;> simp

/-- Witness for C5 at a concrete non-intro request. -/
theorem c5_phase_increment_witness :
    (Multiplayer.generate_next_phase mpRand0 false (.ok mpResult1) mpReq3).phase
      = mpReq3.phase + 1 :=
  c5_phase_increment mpRand0 false (.ok mpResult1) mpReq3 rfl

/-- The mock response ties its ending summary to `is_ending`. -/
theorem mock_response_ending (rand : Multiplayer.MPRand)
    (req : Multiplayer.MultiplayerStoryRequest)
    (h : (Multiplayer.create_mock_response rand req).ending_summary ≠ none) :
    (Multiplayer.create_mock_response rand req).is_ending = true := by
  unfold Multiplayer.create_mock_response at h ⊢
  revert h
  split
  · simp
  · simp only []
    split <;> simp_all

/-- The parsed response ties its ending summary to `is_ending` whenever the
provider's raw `is_ending` value coerces to its own truthiness (which every
JSON boolean does). -/
theorem parse_response_ending (rand : Multiplayer.MPRand)
    (r : Multiplayer.MPResult) (req : Multiplayer.MultiplayerStoryRequest)
    (hb : (r.is_ending.getD (.bool false)).pydanticBool
      = some (r.is_ending.getD (.bool false)).truthy)
    (h : (Multiplayer.parse_llm_response rand r req).ending_summary ≠ none) :
    (Multiplayer.parse_llm_response rand r req).is_ending = true := by
  unfold Multiplayer.parse_llm_response at h ⊢
  dsimp only at h ⊢
  rw [hb]
  by_cases ht : (r.is_ending.getD (Multiplayer.RawBool.bool false)).truthy
      = true
  · exact ht
  · rw [if_neg ht] at h
    exact absurd rfl h

/-- `_generate_intro` ties its ending summary to `is_ending`. -/
theorem intro_response_ending (rand : Multiplayer.MPRand)
    (call : Multiplayer.ProviderCall)
    (req : Multiplayer.MultiplayerStoryRequest)
    (h : (Multiplayer.generate_intro rand call req).ending_summary ≠ none) :
    (Multiplayer.generate_intro rand call req).is_ending = true := by
  cases call with
  | raises => exact mock_response_ending rand req h
  | nonDict => exact mock_response_ending rand req h
  | ok r => simp [Multiplayer.generate_intro] at h

/-- `_generate_story` ties its ending summary to `is_ending` under the same
truthiness/coercion agreement for the provider's raw `is_ending`. -/
theorem story_response_ending (rand : Multiplayer.MPRand)
    (call : Multiplayer.ProviderCall)
    (req : Multiplayer.MultiplayerStoryRequest)
    (hb : ∀ r, call = Multiplayer.ProviderCall.ok r →
      (r.is_ending.getD (.bool false)).pydanticBool
        = some (r.is_ending.getD (.bool false)).truthy)
    (h : (Multiplayer.generate_story rand call req).ending_summary ≠ none) :
    (Multiplayer.generate_story rand call req).is_ending = true := by
  cases call with
  | raises => exact mock_response_ending rand req h
  | nonDict => exact mock_response_ending rand req h
  | ok r =>
    have hbr := hb r rfl
    by_cases he : Multiplayer.effectsRaise (r.effects.getD []) = true
    · rw [show Multiplayer.generate_story rand (.ok r) req
          = Multiplayer.create_mock_response rand req from by
            simp [Multiplayer.generate_story, he]] at h ⊢
      exact mock_response_ending rand req h
    · rw [show Multiplayer.generate_story rand (.ok r) req
          = Multiplayer.parse_llm_response rand r req from by
            simp [Multiplayer.generate_story, he, hbr]] at h ⊢
      exact parse_response_ending rand r req hbr h

/-- C10 counterexample: a provider result whose `is_ending` is the JSON
string `"false"` is truthy for the Python gate at line 245 — so the
provider's `ending_summary` is kept — while pydantic coerces the response's
`is_ending` field to `False`: the returned response violates
`ending_summary ≠ none → is_ending = true`. -/
theorem c10_counterexample :
    (Multiplayer.generate_next_phase mpRand0 false (.ok mpResultFalseStr)
        mpReq3).ending_summary = some "전체 스토리 요약" ∧
    (Multiplayer.generate_next_phase mpRand0 false (.ok mpResultFalseStr)
        mpReq3).is_ending = false := by
  exact ⟨rfl, rfl⟩

/-- C10 (amended): intro and mock responses always satisfy
`ending_summary ≠ none → is_ending = true`; on the provider-parsed path the
implication holds whenever the provider's raw `is_ending` pydantic-coerces
to exactly its own Python truthiness — as JSON booleans and absent values
do — but a truthy string that pydantic coerces to false, such as `"false"`,
yields a response carrying an `ending_summary` with `is_ending = false`. -/
theorem c10_ending_summary_amended (rand : Multiplayer.MPRand)
    (m : Bool) (call : Multiplayer.ProviderCall)
    (req : Multiplayer.MultiplayerStoryRequest)
    (hb : ∀ r, call = Multiplayer.ProviderCall.ok r →
      (r.is_ending.getD (.bool false)).pydanticBool
        = some (r.is_ending.getD (.bool false)).truthy)
    (h : (Multiplayer.generate_next_phase rand m call req).ending_summary ≠ none) :
    (Multiplayer.generate_next_phase rand m call req).is_ending = true := by
  by_cases hm : m = true
  · rw [show Multiplayer.generate_next_phase rand m call req
        = Multiplayer.create_mock_response rand req from by
          simp [Multiplayer.generate_next_phase, hm]] at h ⊢
    exact mock_response_ending rand req h
  · by_cases hi : req.is_intro = true
    · rw [show Multiplayer.generate_next_phase rand m call req
          = Multiplayer.generate_intro rand call req from by
            simp [Multiplayer.generate_next_phase, hm, hi]] at h ⊢
      exact intro_response_ending rand call req h
    · rw [show Multiplayer.generate_next_phase rand m call req
          = Multiplayer.generate_story rand call req from by
            simp [Multiplayer.generate_next_phase, hm, hi]] at h ⊢
      exact story_response_ending rand call req hb h

/-- Witness for C10's amended theorem on the parsed path with a genuine
JSON-boolean `is_ending` and an ending summary present. -/
theorem c10_ending_summary_amended_witness :
    (Multiplayer.generate_next_phase mpRand0 false (.ok mpResultTrue)
        mpReq3).is_ending = true :=
  c10_ending_summary_amended mpRand0 false (.ok mpResultTrue) mpReq3
    (fun r hr => by injection hr with h2; subst h2; rfl) (by decide)

/-- C3 counterexample: a non-intro request with three known participants
whose provider result carries exactly one valid effect entry yields a
response with exactly one effect — not one per participant — because the
default filler only runs when the parsed effects list is empty. -/
theorem c3_counterexample :
    mpReq3.participants.length = 3 ∧
    (Multiplayer.generate_next_phase mpRand0 false (.ok mpResult1) mpReq3).effects
      = [⟨"알파", -1, 0⟩] := by
  exact ⟨rfl, rfl⟩

/-- The names of the default-filled effects are exactly the participant
names, in roster order. -/
theorem default_effects_names (delta : Nat → Int × Int) :
    ∀ (i : Nat) (ps : List Multiplayer.ParticipantInfo),
    (Multiplayer.default_effects_from delta i ps).map
        Multiplayer.ParticipantUpdate.character_name
      = ps.map Multiplayer.ParticipantInfo.character_name := by
  intro i ps
  induction ps generalizing i with
  | nil => rfl
  | cons p rest ih => simp [Multiplayer.default_effects_from, ih]

/-- C3 (amended): when the provider's parsed effects list is non-empty the
response keeps exactly those entries; the one-update-per-participant default
filling (names = roster names, in order) happens only when zero valid effect
entries parse. -/
theorem c3_effects_amended (rand : Multiplayer.MPRand)
    (result : Multiplayer.MPResult) (req : Multiplayer.MultiplayerStoryRequest)
    (h : Multiplayer.parseEffects (result.effects.getD []) ≠ []) :
    (Multiplayer.parse_llm_response rand result req).effects
      = Multiplayer.parseEffects (result.effects.getD []) ∧
    ∀ result2 : Multiplayer.MPResult,
      Multiplayer.parseEffects (result2.effects.getD []) = [] →
      (Multiplayer.parse_llm_response rand result2 req).effects
          = Multiplayer.create_default_effects rand req.participants ∧
      (Multiplayer.parse_llm_response rand result2 req).effects.map
          Multiplayer.ParticipantUpdate.character_name
        = req.participants.map Multiplayer.ParticipantInfo.character_name := by
  refine ⟨?_, ?_⟩
  · unfold Multiplayer.parse_llm_response
    dsimp only
    rw [if_neg (by simpa [List.isEmpty_iff] using h)]
  · intro result2 h2
    have he : (Multiplayer.parse_llm_response rand result2 req).effects
        = Multiplayer.create_default_effects rand req.participants := by
      unfold Multiplayer.parse_llm_response
      dsimp only
      rw [if_pos (by simpa [List.isEmpty_iff] using h2)]
    refine ⟨he, ?_⟩
    rw [he]
    exact default_effects_names rand.delta 0 req.participants

/-- Witness for C3's amended theorem at the concrete one-effect result. -/
theorem c3_effects_amended_witness :
    (Multiplayer.parse_llm_response mpRand0 mpResult1 mpReq3).effects
      = Multiplayer.parseEffects (mpResult1.effects.getD []) :=
  (c3_effects_amended mpRand0 mpResult1 mpReq3 (by decide)).1

/-- C2: with a provider that fails on every one of the `max_retries`
attempts, the single-player quality pipeline returns (never raises) the
hardcoded fallback draft: its `quality_score` is exactly 60.0, its
`quality_feedback` is the fixed bypass marker, it passes the structural
validator, and 60 is below the default `min_quality_score` of 70. -/
theorem c2_fallback_pipeline (ctx : StoryService.StoryContext) (n : Nat) :
    candGet (StoryService.generate_validated_story 70
        (List.replicate n .genNone) ctx) "quality_score"
      = some (.scalar (.num 60)) ∧
    candGet (StoryService.generate_validated_story 70
        (List.replicate n .genNone) ctx) "quality_feedback"
      = some (.scalar (.str "Fallback 스토리 (품질 검증 우회)")) ∧
    (StoryService.validate_json_structure
        (StoryService.generate_validated_story 70
          (List.replicate n .genNone) ctx)).is_valid = true ∧
    (60 : ℚ) < 70 := by
  have hbase : StoryService.generate_validated_story 70
      (List.replicate n .genNone) ctx
      = StoryService.create_fallback_story ctx := by
    induction n with
    | zero => rfl
    | succ k ih => rw [List.replicate_succ]; exact ih
  rw [hbase]
  refine ⟨rfl, rfl, rfl, by norm_num⟩

/-- C9 counterexample: a mapping that lacks `total_score` but carries a
sub-score is not turned into an all-zero result — the sub-score is copied
through — even though `passed` is false. -/
theorem c9_counterexample :
    (StoryService.evaluate_story_quality 70
        (.dict [("creativity", Scalar.int 15)])).passed = false ∧
    (StoryService.evaluate_story_quality 70
        (.dict [("creativity", Scalar.int 15)])).creativity ≠ Scalar.int 0 := by
  exact ⟨by decide, by decide⟩

/-- C9 (amended): the scorer is fail-closed — a raising call or a
non-mapping result yields the all-zero record with `passed = false`; a
mapping lacking `total_score` yields `total_score = 0` and `passed = false`
(but copies any sub-scores it does carry); and at the default threshold 70,
`passed = true` exactly when the stored `total_score` is a number `≥ 70`. -/
theorem c9_scorer_amended (msg : String) (fs : List (String × Scalar)) :
    StoryService.evaluate_story_quality 70 (.raises msg)
      = StoryService.zeroQuality (.str ("평가 오류: " ++ msg)) ∧
    StoryService.evaluate_story_quality 70 .nonDict
      = StoryService.zeroQuality (.str "품질 평가 실패") ∧
    (∀ fb, (StoryService.zeroQuality fb).passed = false) ∧
    (fs.lookup "total_score" = none →
      (StoryService.evaluate_story_quality 70 (.dict fs)).total_score
          = Scalar.int 0 ∧
      (StoryService.evaluate_story_quality 70 (.dict fs)).passed = false) ∧
    ((StoryService.evaluate_story_quality 70 (.dict fs)).passed = true ↔
      ∃ q, scalarAsNum ((fs.lookup "total_score").getD (.int 0)) = some q ∧
        70 ≤ q) := by
  refine ⟨rfl, rfl, fun fb => rfl, ?_, ?_⟩
  · intro h
    unfold StoryService.evaluate_story_quality
    dsimp only
    rw [h]
    exact ⟨rfl, rfl⟩
  · unfold StoryService.evaluate_story_quality
    dsimp only
    split
    next q hq => simp [hq, ge_iff_le]
    next hq => simp [hq, StoryService.zeroQuality]

/-- Witness for C9's amended theorem at the empty mapping. -/
theorem c9_scorer_amended_witness :
    (StoryService.evaluate_story_quality 70 (.dict [])).total_score
        = Scalar.int 0 ∧
    (StoryService.evaluate_story_quality 70 (.dict [])).passed = false :=
  (c9_scorer_amended "x" []).2.2.2.1 rfl

/-- C7 counterexample: a non-200 HTTP status does not yield the
provider-internal fallback story — `generate_story` raises (the source
re-raises `Exception(f"OpenAI API 오류: {status}")` wrapped by its generic
handler). -/
theorem c7_counterexample :
    OpenAIProvider.generate_story true true pctx0
        (.response 500 (some [.unparsable]))
      = Except.error "OpenAI API 호출 실패: OpenAI API 오류: 500" ∧
    OpenAIProvider.generate_story true true pctx0
        (.response 500 (some [.unparsable]))
      ≠ Except.ok (OpenAIProvider.fallback_response pctx0) := by
  refine ⟨rfl, ?_⟩
  intro hc
  rw [show OpenAIProvider.generate_story true true pctx0
      (.response 500 (some [.unparsable]))
      = (Except.error "OpenAI API 호출 실패: OpenAI API 오류: 500" :
          Except String Candidate) from rfl] at hc
  simp at hc

/-- C7 (amended): an available remote provider absorbs content-shape
failures of a 200 response — unparsable content or a missing/empty
`choices` array yields its internal fallback story, never an exception —
while any non-200 status, a timeout, or a client/connection error raises to
the caller. -/
theorem c7_provider_amended (ctx : OpenAIProvider.ProviderContext)
    (status : Nat) (choices : Option (List OpenAIProvider.ChoiceContent))
    (hs : status ≠ 200) :
    OpenAIProvider.generate_story true true ctx
        (.response 200 (some [.unparsable]))
      = Except.ok (OpenAIProvider.fallback_response ctx) ∧
    OpenAIProvider.generate_story true true ctx (.response 200 none)
      = Except.ok (OpenAIProvider.fallback_response ctx) ∧
    OpenAIProvider.generate_story true true ctx (.response 200 (some []))
      = Except.ok (OpenAIProvider.fallback_response ctx) ∧
    OpenAIProvider.generate_story true true ctx (.response status choices)
      = Except.error ("OpenAI API 호출 실패: OpenAI API 오류: " ++ toString status) ∧
    OpenAIProvider.generate_story true true ctx .timeout
      = Except.error "OpenAI API 요청 시간 초과" ∧
    (∀ s, OpenAIProvider.generate_story true true ctx (.clientError s)
      = Except.error ("HTTP 클라이언트 오류: " ++ s)) := by
  refine ⟨rfl, rfl, rfl, ?_, rfl, fun s => rfl⟩
  unfold OpenAIProvider.generate_story
  rw [if_neg (show ¬¬((true && true) = true) by simp)]
  dsimp only
  rw [if_neg hs]

/-- Witness for C7's amended theorem at a concrete 500 status. -/
theorem c7_provider_amended_witness :
    OpenAIProvider.generate_story true true pctx0 (.response 503 none)
      = Except.error ("OpenAI API 호출 실패: OpenAI API 오류: " ++ toString 503) :=
  (c7_provider_amended pctx0 503 none (by decide)).2.2.2.1

/-- C8 counterexample: with `AI_PROVIDER = "openai"`, an empty OpenAI key
and a fully qualified Claude provider available, the factory returns the
mock provider — it does not fall through to the next remote provider. -/
theorem c8_counterexample :
    LLMProviderFactory.claude_is_available c8settings.CLAUDE_API_KEY true
      = true ∧
    LLMProviderFactory.get_provider c8settings true
      = LLMProviderFactory.Provider.mock := by
  exact ⟨by decide, by decide⟩

/-- C8 (amended): the factory is a pure function of the settings; it
returns the remote provider named by the configuration exactly when that
provider's credential is non-empty and it reports itself available, and in
every other case — including when the *other* remote provider would
qualify — it returns the mock provider (there is no fall-through between
remote providers). -/
theorem c8_factory_amended (s : LLMProviderFactory.Settings) (a : Bool) :
    (pyLower s.AI_PROVIDER = "openai" →
      LLMProviderFactory.openai_is_available s.OPENAI_API_KEY a = false →
      LLMProviderFactory.get_provider s a = LLMProviderFactory.Provider.mock) ∧
    (pyLower s.AI_PROVIDER = "claude" →
      LLMProviderFactory.claude_is_available s.CLAUDE_API_KEY a = false →
      LLMProviderFactory.get_provider s a = LLMProviderFactory.Provider.mock) ∧
    (LLMProviderFactory.get_provider s a
        = LLMProviderFactory.Provider.openai s.OPENAI_API_KEY s.OPENAI_MODEL
            s.OPENAI_MAX_TOKENS ↔
      pyLower s.AI_PROVIDER = "openai" ∧ s.OPENAI_API_KEY ≠ "" ∧
        LLMProviderFactory.openai_is_available s.OPENAI_API_KEY a = true) ∧
    (LLMProviderFactory.get_provider s a
        = LLMProviderFactory.Provider.claude s.CLAUDE_API_KEY s.CLAUDE_MODEL ↔
      pyLower s.AI_PROVIDER = "claude" ∧ s.CLAUDE_API_KEY ≠ "" ∧
        LLMProviderFactory.claude_is_available s.CLAUDE_API_KEY a = true) ∧
    (pyLower s.AI_PROVIDER ≠ "openai" → pyLower s.AI_PROVIDER ≠ "claude" →
      LLMProviderFactory.get_provider s a = LLMProviderFactory.Provider.mock) := by
  unfold LLMProviderFactory.get_provider
  dsimp only
  refine ⟨?_, ?_, ?_, ?_, ?_⟩ <;>
    split_ifs <;>
      simp_all [LLMProviderFactory.openai_is_available,
        LLMProviderFactory.claude_is_available]

/-- Witness for C8's amended theorem at the concrete settings. -/
theorem c8_factory_amended_witness :
    LLMProviderFactory.get_provider c8settings true
      = LLMProviderFactory.Provider.mock :=
  (c8_factory_amended c8settings true).1 (by decide) (by decide)

/-- A successful association-list lookup returns one of the stored values. -/
theorem lookup_mem_values {α β : Type} [BEq α] (l : List (α × β)) (k : α)
    (v : β) (h : l.lookup k = some v) : v ∈ l.map Prod.snd := by
  induction l with
  | nil => simp [List.lookup] at h
  | cons p rest ih =>
    obtain ⟨a, b⟩ := p
    rw [List.lookup] at h
    cases hk : (k == a) with
    | true => rw [hk] at h; simp at h; simp [h]
    | false => rw [hk] at h; simpa using Or.inr (ih h)

/-- `_get_fallback_theme` always lands in `ALLOWED_THEMES`: its lookup
table only stores allowed themes, and the unknown-station draw picks from
the allowed list itself. -/
theorem get_fallback_theme_mem (choice : Fin 3) (station : String) :
    BatchStoryService.get_fallback_theme choice station
      ∈ BatchStoryService.ALLOWED_THEMES := by
  unfold BatchStoryService.get_fallback_theme
  cases h : BatchStoryService.theme_mapping.lookup station with
  | none => exact List.get_mem _ _ _
  | some t =>
    have hall : ∀ v ∈ BatchStoryService.theme_mapping.map Prod.snd,
        v ∈ BatchStoryService.ALLOWED_THEMES := by decide
    exact hall t (lookup_mem_values _ _ _ h)

/-- C1 (amended): the theme of every story returned by the batch service
(`generate_complete_story`, on the provider path, the mock path and the
whole-pipeline fallback path alike) lies in the allowed set
{미스터리, 공포, 스릴러}, out-of-set provider themes being replaced by the
deterministic per-station fallback; the single-player service applies no
such enforcement (see the counterexample). -/
theorem c1_batch_theme_allowed (ca cb cc : Fin 3) (m : Bool)
    (station : String) (r : BatchStoryService.MetaResult) (pr : Bool) :
    BatchStoryService.generate_complete_story_theme ca cb cc m station r pr
      ∈ BatchStoryService.ALLOWED_THEMES := by
  unfold BatchStoryService.generate_complete_story_theme
  split
  · exact get_fallback_theme_mem cc station
  · dsimp only
    split
    · assumption
    · exact get_fallback_theme_mem cb station

/-- C1 counterexample: the single-player quality pipeline accepts and
returns a draft whose theme is 로맨스 — outside the allowed set — with no
replacement: the validator only checks that `theme` is present, and the
fallback response even carries the out-of-set theme 일상. -/
theorem c1_counterexample :
    candGet (StoryService.generate_validated_story 70
        [.gen romanceDraft (.dict [("total_score", Scalar.int 90)])] sctx0)
        "theme"
      = some (CandVal.scalar (.str "로맨스")) ∧
    "로맨스" ∉ BatchStoryService.ALLOWED_THEMES ∧
    (StoryService.create_fallback_response ⟨"강남", 2⟩).theme = "일상" ∧
    "일상" ∉ BatchStoryService.ALLOWED_THEMES := by
  exact ⟨rfl, by decide, rfl, by decide⟩

/-- A list whose `isEmpty` is false is not nil. -/
theorem ne_nil_of_isEmpty_eq_false {α : Type} {l : List α}
    (h : l.isEmpty = false) : l ≠ [] := by
  cases l <;> simp_all

/-- A non-nil list has `isEmpty` false. -/
theorem isEmpty_eq_false_of_ne_nil {α : Type} {l : List α} (h : l ≠ []) :
    l.isEmpty = false := by
  cases l <;> simp_all

/-- The missing-field error accumulator is empty exactly when every field
passes the presence test. -/
theorem filterMap_if_eq_nil {α : Type} (l : List α) (p : α → Bool)
    (msg : α → String) :
    (l.filterMap (fun x => if p x then none else some (msg x)) = [])
      ↔ (l.all p = true) := by
  rw [List.filterMap_eq_nil_iff, List.all_eq_true]
  constructor
  · intro h x hx
    have hh := h x hx
    by_cases hp : p x
    · exact hp
    · simp [hp] at hh
  · intro h x hx
    simp [h x hx]

/-- One option entry contributes no errors exactly when it is well-formed
in the sense of the spec. -/
theorem optionErrors_eq_nil (i : Nat) (o : OptVal) :
    StoryService.optionErrors i o = [] ↔ StoryService.optionWF o = true := by
  cases o with
  | nondict =>
    simp [StoryService.optionErrors, StoryService.optionWF, optGet,
      StoryService.optionFields]
  | dict fs =>
    simp only [StoryService.optionErrors, StoryService.optionWF,
      List.append_eq_nil, Bool.and_eq_true]
    have hA := filterMap_if_eq_nil StoryService.optionFields
      (fun f => (optGet (OptVal.dict fs) f).isSome)
      (fun f => "선택지 " ++ toString (i + 1) ++ " 필드 누락: " ++ f)
    rw [hA]
    have hB : ((match optGet (OptVal.dict fs) "effect" with
        | some (.str e) =>
          if e = "health" ∨ e = "sanity" ∨ e = "none" then []
          else ["선택지 " ++ toString (i + 1) ++ " effect 값 오류"]
        | _ => ["선택지 " ++ toString (i + 1) ++ " effect 값 오류"]) = [])
        ↔ ((match optGet (OptVal.dict fs) "effect" with
        | some (.str e) => decide (e = "health" ∨ e = "sanity" ∨ e = "none")
        | _ => false) = true) := by
      cases he : optGet (OptVal.dict fs) "effect" with
      | none => simp
      | some sc =>
        cases sc with
        | str e =>
          by_cases hp : e = "health" ∨ e = "sanity" ∨ e = "none" <;>
            simp [hp]
        | int n => simp
        | bool b => simp
        | num q => simp
        | other => simp
    rw [hB]
    have hC : ((match scalarAsPyInt ((optGet (OptVal.dict fs) "amount").getD
          Scalar.other) with
        | some n =>
          if n < -10 ∨ n > 10 then
            ["선택지 " ++ toString (i + 1) ++ " amount 값 오류"]
          else []
        | none => ["선택지 " ++ toString (i + 1) ++ " amount 값 오류"]) = [])
        ↔ ((match scalarAsPyInt ((optGet (OptVal.dict fs) "amount").getD
          Scalar.other) with
        | some n => decide (-10 ≤ n ∧ n ≤ 10)
        | none => false) = true) := by
      cases ha : scalarAsPyInt ((optGet (OptVal.dict fs) "amount").getD
          Scalar.other) with
      | none => simp
      | some n =>
        by_cases hn : n < -10 ∨ n > 10
        · simp only [if_pos hn]
          constructor
          · intro hc; simp at hc
          · intro hc; rw [decide_eq_true_eq] at hc; omega
        · simp only [if_neg hn]
          constructor
          · intro _; rw [decide_eq_true_eq]; omega
          · intro _; trivial
    rw [hC]

/-- The whole option loop contributes no errors exactly when every entry is
well-formed. -/
theorem optionsErrors_eq_nil (opts : List OptVal) :
    ∀ i, (StoryService.optionsErrors i opts = []
      ↔ opts.all StoryService.optionWF = true) := by
  induction opts with
  | nil => intro i; simp [StoryService.optionsErrors]
  | cons o rest ih =>
    intro i
    simp only [StoryService.optionsErrors, List.append_eq_nil, List.all_cons,
      Bool.and_eq_true]
    exact and_congr (optionErrors_eq_nil i o) (ih (i + 1))

/-- C6: the structural validator accepts exactly the candidates described by
the spec — every required field present, 2 to 4 options, each option with
all four fields, an allowed `effect` and an integer `amount` in
`[-10, 10]` — and on rejection its error list is non-empty.  (The embedded
validator is a pure function, so it cannot modify the candidate it
checks.) -/
theorem c6_validator_equiv (c : Candidate) :
    ((StoryService.validate_json_structure c).is_valid
      = StoryService.specValid c) ∧
    ((StoryService.validate_json_structure c).is_valid = false →
      (StoryService.validate_json_structure c).errors ≠ []) := by
  constructor
  · unfold StoryService.validate_json_structure StoryService.specValid
    cases hopt : candGet c "options" with
    | none =>
      dsimp only
      rw [Bool.and_false]
      exact isEmpty_eq_false_of_ne_nil (by simp [StoryService.countError])
    | some v =>
      cases v with
      | scalar s =>
        dsimp only
        rw [Bool.and_false]
        exact isEmpty_eq_false_of_ne_nil (by simp)
      | list opts =>
        dsimp only
        rw [Bool.eq_iff_iff, List.isEmpty_iff]
        simp only [List.append_eq_nil, Bool.and_eq_true]
        rw [filterMap_if_eq_nil StoryService.requiredFields
          (fun f => (candGet c f).isSome) (fun f => "필수 필드 누락: " ++ f)]
        have hcnt : ((if opts.length < 2 ∨ opts.length > 4 then
              StoryService.countError opts.length else []) = [])
            ↔ (decide (2 ≤ opts.length ∧ opts.length ≤ 4) = true) := by
          by_cases hl : opts.length < 2 ∨ opts.length > 4
          · simp only [if_pos hl, StoryService.countError]
            constructor
            · intro hc; simp at hc
            · intro hc; rw [decide_eq_true_eq] at hc; omega
          · simp only [if_neg hl]
            constructor
            · intro _; rw [decide_eq_true_eq]; omega
            · intro _; trivial
        rw [hcnt, optionsErrors_eq_nil opts 0]
        tauto
  · intro h
    unfold StoryService.validate_json_structure at h ⊢
    cases hopt : candGet c "options" with
    | none =>
      rw [hopt] at h
      exact ne_nil_of_isEmpty_eq_false h
    | some v =>
      cases v with
      | scalar s =>
        rw [hopt] at h
        exact ne_nil_of_isEmpty_eq_false h
      | list opts =>
        rw [hopt] at h
        exact ne_nil_of_isEmpty_eq_false h

/-- Witness for C6: on a concrete bad candidate the validator rejects with a
non-empty error list. -/
theorem c6_validator_witness :
    (StoryService.validate_json_structure badDraft).errors ≠ [] :=
  (c6_validator_equiv badDraft).2 (by rfl)

end Behindy
